import Mathlib

/-!
Verification of the monitoring-ms metric-collection engine.

The definitions below are a shallow embedding of the Python sources:
`common/metric_config.py` (label and configuration model),
`common/base_metric.py` (collector state, publish/fault handling,
exposition formatting), `common/metric_types.py` (polling and streaming
collection loops with the latency sanity bound), `common/factory.py`
(registry and collector creation) and
`evm-service/app/metrics/block_latency.py` (streaming dedup).
Latency values are modelled as rationals; one iteration of an unending
collection loop is modelled as a state-transition function driven by an
explicit environment event (the outcome of the network interaction).
-/

namespace Monitoring

/-- The single-quote character, used by Python string reprs. -/
def sq : String := String.singleton (Char.ofNat 39)

/-- Label keys, from `MetricLabelKey` in `common/metric_config.py`. -/
inductive MetricLabelKey where
  | sourceRegion
  | targetRegion
  | blockchain
  | provider
  | apiMethod
  | responseStatus
deriving DecidableEq, Repr

/-- The wire name of each label key (the Python enum value). -/
def MetricLabelKey.value : MetricLabelKey → String
  | .sourceRegion => "source_region"
  | .targetRegion => "target_region"
  | .blockchain => "blockchain"
  | .provider => "provider"
  | .apiMethod => "api_method"
  | .responseStatus => "response_status"

/-- A single label, from `MetricLabel` in `common/metric_config.py`. -/
structure MetricLabel where
  key : MetricLabelKey
  value : String
deriving DecidableEq, Repr

/-- Update the first label whose key matches, as `MetricLabels.update_label`
does (no change when the key is absent, only a warning is logged). -/
def updateLabelList : List MetricLabel → MetricLabelKey → String → List MetricLabel
  | [], _, _ => []
  | l :: ls, k, v =>
    if l.key = k then { l with value := v } :: ls
    else l :: updateLabelList ls k v

/-- Retrieve the first label whose key matches, as `MetricLabels.get_label`. -/
def getLabelList : List MetricLabel → MetricLabelKey → Option String
  | [], _ => none
  | l :: ls, k => if l.key = k then some l.value else getLabelList ls k

/-- Ordered label collection, from `MetricLabels` in `common/metric_config.py`. -/
structure MetricLabels where
  labels : List MetricLabel
deriving DecidableEq, Repr

/-- `MetricLabels.__init__`: the six labels in construction order. -/
def MetricLabels.init (source_region target_region blockchain provider
    api_method response_status : String) : MetricLabels :=
  ⟨[⟨.sourceRegion, source_region⟩,
    ⟨.targetRegion, target_region⟩,
    ⟨.blockchain, blockchain⟩,
    ⟨.provider, provider⟩,
    ⟨.apiMethod, api_method⟩,
    ⟨.responseStatus, response_status⟩]⟩

/-- `MetricLabels.init` with the Python default arguments
`api_method="default"`, `response_status="success"`. -/
def MetricLabels.initDefault (source_region target_region blockchain provider : String) :
    MetricLabels :=
  MetricLabels.init source_region target_region blockchain provider "default" "success"

def MetricLabels.update_label (ls : MetricLabels) (k : MetricLabelKey) (v : String) :
    MetricLabels :=
  ⟨updateLabelList ls.labels k v⟩

def MetricLabels.get_label (ls : MetricLabels) (k : MetricLabelKey) : Option String :=
  getLabelList ls.labels k

/-- `MetricLabels.get_prometheus_labels`: comma-joined `key="value"` pairs
in insertion order. -/
def MetricLabels.get_prometheus_labels (ls : MetricLabels) : String :=
  String.intercalate "," (ls.labels.map fun l => l.key.value ++ "=\"" ++ l.value ++ "\"")

/-- Collector configuration, from `MetricConfig` in `common/metric_config.py`
(the opaque extra-parameter map is not used by any verified claim). -/
structure MetricConfig where
  timeout : ℚ
  interval : ℚ
  retry_interval : ℚ
deriving DecidableEq, Repr

/-- Mutable collector state, from `BaseMetric` in `common/base_metric.py`:
the rendered metric name, the label set, and the latest published value
(`None` until the first successful collection). -/
structure MetricState where
  metric_name : String
  labels : MetricLabels
  latest_value : Option ℚ
deriving DecidableEq, Repr

/-- `BaseMetric.update_metric_value`: store the value and flip the
response-status label to success. -/
def update_metric_value (s : MetricState) (v : ℚ) : MetricState :=
  { s with latest_value := some v,
           labels := s.labels.update_label .responseStatus "success" }

/-- `BaseMetric.handle_error`: flip the response-status label to failed
(and log); nothing else changes. -/
def handle_error (s : MetricState) : MetricState :=
  { s with labels := s.labels.update_label .responseStatus "failed" }

/-- `BaseMetric.get_prometheus_format`: raises when no value was ever
published, else renders `name{labels} value`. -/
def get_prometheus_format (s : MetricState) : Except String String :=
  match s.latest_value with
  | none => .error "Metric value is not set"
  | some v =>
    .ok (s.metric_name ++ "\x7b" ++ s.labels.get_prometheus_labels ++ "\x7d " ++ toString v)

/-- `BaseMetric.get_influx_format`: raises when no value was ever published,
else renders the influx line `name,tag=value,... value=v` (no comma after
the name when there are no labels). -/
def get_influx_format (s : MetricState) : Except String String :=
  match s.latest_value with
  | none => .error "Metric value is not set"
  | some v =>
    let tag_str := String.intercalate ","
      (s.labels.labels.map fun l => l.key.value ++ "=" ++ l.value)
    if tag_str ≠ "" then
      .ok (s.metric_name ++ "," ++ tag_str ++ " value=" ++ toString v)
    else
      .ok (s.metric_name ++ " value=" ++ toString v)

/-- `BaseMetric.get_all_latest_values`: influx-format every known instance
whose latest value is set (the guard runs before the formatter, so the
formatter's error branch is unreachable; an instance whose formatting
nevertheless failed would be dropped here). -/
def get_all_latest_values (l : List MetricState) : List String :=
  l.filterMap fun i =>
    if i.latest_value.isSome then (get_influx_format i).toOption else none

/-- The `/metrics` endpoint body, from `get_metrics` in
`common/main_core.py`: newline-joined renderer output. -/
def get_metrics_body (l : List MetricState) : String :=
  String.intercalate "\n" (get_all_latest_values l)

/-- `MAX_LATENCY_SEC` in `common/metric_types.py`. -/
def MAX_LATENCY_SEC : ℚ := 30

/-- One iteration of `HttpMetric.collect_metric` in `common/metric_types.py`.
The environment's behaviour is the outcome of `fetch_data` composed with the
identity `process_data` of `HttpCallLatencyMetricBase`: an exception, or a
returned optional latency (the walrus guard `if data :=` skips falsy data,
i.e. `None` or a zero float). An extracted value above the sanity bound
raises, which the loop turns into `handle_error`. -/
def httpCollectIter (s : MetricState) (fetch : Except Unit (Option ℚ)) : MetricState :=
  match fetch with
  | .error _ => handle_error s
  | .ok none => s
  | .ok (some v) =>
    if v = 0 then s
    else if MAX_LATENCY_SEC < v then handle_error s
    else update_metric_value s v

/-- Environment event for one iteration of `WebSocketMetric.collect_metric`:
which step of the connect/subscribe/listen/extract cycle failed, or the
extracted latency when everything succeeded. `listenNone` is a falsy
result of `listen_for_data`, `extractFail` an exception from
`process_data` on truthy data. -/
inductive WsEvent where
  | connectFail
  | subscribeFail
  | listenFail
  | listenNone
  | extractFail
  | dataValue (v : ℚ)
deriving DecidableEq, Repr

/-- Whether the event makes the iteration take the fault path (a value
above the sanity bound raises inside the `try`). -/
def WsEvent.isFault : WsEvent → Bool
  | .connectFail => true
  | .subscribeFail => true
  | .listenFail => true
  | .listenNone => false
  | .extractFail => true
  | .dataValue v => decide (MAX_LATENCY_SEC < v)

/-- Observable outcome of one iteration of `WebSocketMetric.collect_metric`:
the collector state after the iteration, whether the `finally` block found a
live websocket and attempted `unsubscribe`/`close`, and how long it sleeps
before the next connect attempt. -/
structure WsIterOut where
  state : MetricState
  closeAttempted : Bool
  sleep : ℚ
deriving DecidableEq, Repr

/-- One iteration of `WebSocketMetric.collect_metric` in
`common/metric_types.py`. `closeRaises` says whether the best-effort
`unsubscribe`/`close` in the `finally` block raises; that exception is
caught and logged, so it never influences the result. The `finally`
block always sleeps `config.interval`. -/
def wsCollectIter (cfg : MetricConfig) (s : MetricState) (e : WsEvent)
    (closeRaises : Bool) : WsIterOut :=
  match e with
  | .connectFail => ⟨handle_error s, false, cfg.interval⟩
  | .subscribeFail => ⟨handle_error s, true, cfg.interval⟩
  | .listenFail => ⟨handle_error s, true, cfg.interval⟩
  | .listenNone => ⟨s, true, cfg.interval⟩
  | .extractFail => ⟨handle_error s, true, cfg.interval⟩
  | .dataValue v =>
    if MAX_LATENCY_SEC < v then ⟨handle_error s, true, cfg.interval⟩
    else ⟨update_metric_value s v, true, cfg.interval⟩

/-- A `newHeads` notification as consumed by
`WsBlockLatencyMetric.listen_for_data` in
`evm-service/app/metrics/block_latency.py`: the block hash and the latency
that `process_data` computes for this block. -/
structure BlockMsg where
  hash : String
  latency : ℚ
deriving DecidableEq, Repr

/-- State of a `WsBlockLatencyMetric`: the base collector state plus the
`last_block_hash` dedup marker initialised to `None` by
`WebSocketMetric.__init__`. -/
structure WsBlockState where
  base : MetricState
  last_block_hash : Option String
deriving DecidableEq, Repr

/-- `WsBlockLatencyMetric.listen_for_data` on a received notification:
a block whose hash differs from `last_block_hash` is recorded and returned,
a duplicate is discarded by returning `None`. -/
def listen_for_data (s : WsBlockState) (m : BlockMsg) : WsBlockState × Option BlockMsg :=
  if some m.hash ≠ s.last_block_hash then
    ({ s with last_block_hash := some m.hash }, some m)
  else
    (s, none)

/-- One iteration of the streaming loop of a `WsBlockLatencyMetric` in which
connect and subscribe succeed and one notification arrives: dedup via
`listen_for_data`, then the sanity-bound check and publish of
`WebSocketMetric.collect_metric`. Returns the new state and the published
item, when one was published. -/
def wsBlockIter (s : WsBlockState) (m : BlockMsg) : WsBlockState × Option BlockMsg :=
  match listen_for_data s m with
  | (s1, none) => (s1, none)
  | (s1, some b) =>
    if MAX_LATENCY_SEC < b.latency then ({ s1 with base := handle_error s1.base }, none)
    else ({ s1 with base := update_metric_value s1.base b.latency }, some b)

/-- Run the streaming loop over a sequence of received notifications,
collecting the published items in order. -/
def wsBlockRun (s : WsBlockState) : List BlockMsg → WsBlockState × List BlockMsg
  | [] => (s, [])
  | m :: ms =>
    match wsBlockIter s m with
    | (s1, p) =>
      match wsBlockRun s1 ms with
      | (s2, ps) => (s2, p.toList ++ ps)

/-- A metric class is identified by a number; Python classes are objects,
and `MetricFactory.register` mutates a class-level attribute on them. -/
abbrev ClassId := Nat

/-- State of `MetricFactory` in `common/factory.py` together with the
class-level `metric_name` attributes that `register` assigns: `registry`
is the insertion-ordered dict from blockchain name to the list of
registered classes, `classNames` the per-class `metric_name` attribute
store (last assignment wins). -/
structure FactoryState where
  registry : List (String × List ClassId)
  classNames : List (ClassId × String)
deriving DecidableEq, Repr

/-- The empty factory state (fresh interpreter, nothing registered). -/
def FactoryState.empty : FactoryState := ⟨[], []⟩

/-- Dict lookup in insertion order (`cls._registry[blockchain_name]`). -/
def dictFind (d : List (String × List ClassId)) (k : String) : Option (List ClassId) :=
  match d with
  | [] => none
  | (k0, v0) :: rest => if k0 = k then some v0 else dictFind rest k

/-- `list(cls._registry.keys())`: the keys in insertion order. -/
def dictKeys (d : List (String × List ClassId)) : List String :=
  d.map Prod.fst

/-- Add an empty entry for a blockchain not yet in the registry
(`if blockchain_name not in cls._registry`). -/
def ensureKey (d : List (String × List ClassId)) (k : String) :
    List (String × List ClassId) :=
  if (dictFind d k).isSome then d else d ++ [(k, [])]

/-- Append a class to the registry entry of a blockchain
(`cls._registry[blockchain_name].append(metric_class)`). -/
def registryAppend (d : List (String × List ClassId)) (k : String) (c : ClassId) :
    List (String × List ClassId) :=
  match d with
  | [] => []
  | (k0, v0) :: rest =>
    if k0 = k then (k0, v0 ++ [c]) :: rest else (k0, v0) :: registryAppend rest k c

/-- Class-attribute assignment `metric_class.metric_name = metric_name`:
overwrite the stored name of the class, or record it the first time. -/
def setClassName (cn : List (ClassId × String)) (c : ClassId) (n : String) :
    List (ClassId × String) :=
  match cn with
  | [] => [(c, n)]
  | (c0, n0) :: rest => if c0 = c then (c, n) :: rest else (c0, n0) :: setClassName rest c n

/-- Read the class-level `metric_name` attribute. -/
def getClassName (cn : List (ClassId × String)) (c : ClassId) : Option String :=
  match cn with
  | [] => none
  | (c0, n0) :: rest => if c0 = c then some n0 else getClassName rest c

/-- `MetricFactory.register` for one blockchain entry of the argument dict:
ensure the registry key exists, then for each (class, name) tuple assign
the class attribute and append the class. -/
def registerOne (st : FactoryState) (b : String) (ms : List (ClassId × String)) :
    FactoryState :=
  ms.foldl
    (fun acc m =>
      ⟨registryAppend acc.registry b m.1, setClassName acc.classNames m.1 m.2⟩)
    ⟨ensureKey st.registry b, st.classNames⟩

/-- `MetricFactory.register`: iterate the argument dict in insertion order. -/
def register (st : FactoryState) (bm : List (String × List (ClassId × String))) :
    FactoryState :=
  bm.foldl (fun acc p => registerOne acc p.1 p.2) st

/-- Python repr of a string: single quotes around the text. -/
def quoteItem (s : String) : String := sq ++ s ++ sq

/-- Comma-space join, as in Python list reprs. -/
def commaJoin : List String → String
  | [] => ""
  | [x] => x
  | x :: y :: rest => x ++ ", " ++ commaJoin (y :: rest)

/-- Python repr of a list of strings, e.g. `['ethereum', 'ton']`. -/
def pyListRepr (l : List String) : String :=
  "[" ++ commaJoin (l.map quoteItem) ++ "]"

/-- The `ValueError` message of `MetricFactory.create_metrics` for an
unregistered blockchain, enumerating the registered keys. -/
def createErrMsg (blockchain : String) (keys : List String) : String :=
  "No metric classes registered for blockchain " ++ quoteItem blockchain
    ++ ". Available blockchains: " ++ pyListRepr keys

/-- Construction of one collector instance inside `create_metrics`: a fresh
`MetricLabels` from the provider context, then the subclass `__init__`
(e.g. `HttpCallLatencyMetricBase.__init__` or
`WsBlockLatencyMetric.__init__`) overwrites the api-method label with the
method of its own class when it declares one (`classMethod`), and the
instance's `metric_name` is the class attribute at creation time. -/
def constructInstance (classMethod : ClassId → Option String)
    (names : List (ClassId × String)) (source_region target_region blockchain provider : String)
    (c : ClassId) : MetricState :=
  let labels := MetricLabels.initDefault source_region target_region blockchain provider
  let labels :=
    match classMethod c with
    | some m => labels.update_label .apiMethod m
    | none => labels
  { metric_name := (getClassName names c).getD "",
    labels := labels,
    latest_value := none }

/-- Result of a `create_metrics` call: the returned list or the raised
error, the factory state after the call, and `BaseMetric._instances`
after the call (every constructed instance appends itself there). -/
structure CreateOut where
  result : Except String (List MetricState)
  factory : FactoryState
  instances : List MetricState
deriving Repr

/-- `MetricFactory.create_metrics` in `common/factory.py`: raise for an
unregistered blockchain, else build one collector per registered class in
registration order, each with its own fresh label set from the provider
context. -/
def create_metrics (classMethod : ClassId → Option String) (st : FactoryState)
    (instances : List MetricState)
    (blockchain source_region target_region provider : String) : CreateOut :=
  match dictFind st.registry blockchain with
  | none => ⟨.error (createErrMsg blockchain (dictKeys st.registry)), st, instances⟩
  | some classes =>
    let created := classes.map
      (constructInstance classMethod st.classNames source_region target_region
        blockchain provider)
    ⟨.ok created, st, instances ++ created⟩

/-! Frame lemmas for label update and lookup. -/

theorem getLabelList_update_ne (ls : List MetricLabel) (k k2 : MetricLabelKey) (v : String)
    (h : k2 ≠ k) : getLabelList (updateLabelList ls k v) k2 = getLabelList ls k2 := by
  induction ls with
  | nil => rfl
  | cons l rest ih =>
    by_cases hk : l.key = k
    · simp only [updateLabelList, if_pos hk, getLabelList, hk]
      rw [if_neg (fun hh => h hh.symm), if_neg (fun hh => h hh.symm)]
    · simp only [updateLabelList, if_neg hk, getLabelList]
      by_cases h2 : l.key = k2
      · rw [if_pos h2, if_pos h2]
      · rw [if_neg h2, if_neg h2, ih]

theorem getLabelList_update_self (ls : List MetricLabel) (k : MetricLabelKey) (v : String)
    (h : (getLabelList ls k).isSome = true) :
    getLabelList (updateLabelList ls k v) k = some v := by
  induction ls with
  | nil => simp [getLabelList] at h
  | cons l rest ih =>
    by_cases hk : l.key = k
    · simp [updateLabelList, if_pos hk, getLabelList, hk]
    · simp only [updateLabelList, if_neg hk, getLabelList, if_neg hk] at h ⊢
      exact ih h

theorem get_label_update_ne (ls : MetricLabels) (k k2 : MetricLabelKey) (v : String)
    (h : k2 ≠ k) : (ls.update_label k v).get_label k2 = ls.get_label k2 :=
  getLabelList_update_ne ls.labels k k2 v h

theorem get_label_update_self (ls : MetricLabels) (k : MetricLabelKey) (v : String)
    (h : (ls.get_label k).isSome = true) :
    (ls.update_label k v).get_label k = some v :=
  getLabelList_update_self ls.labels k v h

/-- C2: a successful extraction updates only the latest value and the
response-status label (flipped to success); a fault updates only the
response-status label (flipped to failed); the metric name, the latest
value on the fault path, and every label other than response status are
left unchanged by both transitions. -/
theorem publish_and_fault_frame (s : MetricState) (v : ℚ)
    (hs : (s.labels.get_label MetricLabelKey.responseStatus).isSome = true) :
    (update_metric_value s v).latest_value = some v
    ∧ (update_metric_value s v).metric_name = s.metric_name
    ∧ (update_metric_value s v).labels.get_label MetricLabelKey.responseStatus
        = some "success"
    ∧ (∀ k, k ≠ MetricLabelKey.responseStatus →
        (update_metric_value s v).labels.get_label k = s.labels.get_label k)
    ∧ (handle_error s).latest_value = s.latest_value
    ∧ (handle_error s).metric_name = s.metric_name
    ∧ (handle_error s).labels.get_label MetricLabelKey.responseStatus = some "failed"
    ∧ (∀ k, k ≠ MetricLabelKey.responseStatus →
        (handle_error s).labels.get_label k = s.labels.get_label k) := by
  refine ⟨rfl, rfl, get_label_update_self _ _ _ hs,
    fun k hk => get_label_update_ne _ _ _ _ hk, rfl, rfl,
    get_label_update_self _ _ _ hs,
    fun k hk => get_label_update_ne _ _ _ _ hk⟩

/-- C2 witness: the frame conditions at a concrete collector state, with
the untouched-label conjuncts instantiated at the blockchain label. -/
theorem publish_and_fault_frame_witness :
    (update_metric_value ⟨"m", MetricLabels.initDefault "a" "b" "c" "d", some 5⟩ 7).latest_value
      = some 7
    ∧ (update_metric_value ⟨"m", MetricLabels.initDefault "a" "b" "c" "d", some 5⟩ 7).metric_name
      = "m"
    ∧ (update_metric_value ⟨"m", MetricLabels.initDefault "a" "b" "c" "d", some 5⟩
        7).labels.get_label MetricLabelKey.responseStatus = some "success"
    ∧ (update_metric_value ⟨"m", MetricLabels.initDefault "a" "b" "c" "d", some 5⟩
        7).labels.get_label MetricLabelKey.blockchain
      = (MetricLabels.initDefault "a" "b" "c" "d").get_label MetricLabelKey.blockchain
    ∧ (handle_error ⟨"m", MetricLabels.initDefault "a" "b" "c" "d", some 5⟩).latest_value
      = some 5
    ∧ (handle_error ⟨"m", MetricLabels.initDefault "a" "b" "c" "d", some 5⟩).metric_name = "m"
    ∧ (handle_error ⟨"m", MetricLabels.initDefault "a" "b" "c" "d",
        some 5⟩).labels.get_label MetricLabelKey.responseStatus = some "failed"
    ∧ (handle_error ⟨"m", MetricLabels.initDefault "a" "b" "c" "d",
        some 5⟩).labels.get_label MetricLabelKey.blockchain
      = (MetricLabels.initDefault "a" "b" "c" "d").get_label MetricLabelKey.blockchain := by
  obtain ⟨h1, h2, h3, h4, h5, h6, h7, h8⟩ :=
    publish_and_fault_frame ⟨"m", MetricLabels.initDefault "a" "b" "c" "d", some 5⟩ 7
      (by decide)
  exact ⟨h1, h2, h3, h4 MetricLabelKey.blockchain (by decide), h5, h6, h7,
    h8 MetricLabelKey.blockchain (by decide)⟩

/-- C1: in both the polling and the streaming collection loop, an extracted
value above the 30-second sanity bound is never published: the latest value
is exactly what it was before (set or unset) and the response-status label
is set to failed. -/
theorem bound_violation_not_published (cfg : MetricConfig) (s : MetricState) (v : ℚ)
    (closeRaises : Bool) (hv : MAX_LATENCY_SEC < v)
    (hs : (s.labels.get_label MetricLabelKey.responseStatus).isSome = true) :
    (httpCollectIter s (.ok (some v))).latest_value = s.latest_value
    ∧ (httpCollectIter s (.ok (some v))).labels.get_label MetricLabelKey.responseStatus
        = some "failed"
    ∧ (wsCollectIter cfg s (.dataValue v) closeRaises).state.latest_value = s.latest_value
    ∧ (wsCollectIter cfg s (.dataValue v)
        closeRaises).state.labels.get_label MetricLabelKey.responseStatus = some "failed" := by
  have hv0 : ¬ v = 0 := by
    intro h
    rw [h] at hv
    exact absurd hv (by norm_num [MAX_LATENCY_SEC])
  have hhttp : httpCollectIter s (.ok (some v)) = handle_error s := by
    simp only [httpCollectIter, if_neg hv0, if_pos hv]
  have hws : wsCollectIter cfg s (.dataValue v) closeRaises
      = ⟨handle_error s, true, cfg.interval⟩ := by
    simp only [wsCollectIter, if_pos hv]
  rw [hhttp, hws]
  exact ⟨rfl, get_label_update_self _ _ _ hs, rfl, get_label_update_self _ _ _ hs⟩

/-- C1 witness: a measured value of 31 against a collector whose last
published value is 5 leaves the value at 5 and flips the status to failed,
in both loop variants. -/
theorem bound_violation_not_published_witness :
    (httpCollectIter ⟨"m", MetricLabels.initDefault "a" "b" "c" "d", some 5⟩
        (.ok (some 31))).latest_value = some 5
    ∧ (httpCollectIter ⟨"m", MetricLabels.initDefault "a" "b" "c" "d", some 5⟩
        (.ok (some 31))).labels.get_label MetricLabelKey.responseStatus = some "failed"
    ∧ (wsCollectIter ⟨50, 60, 30⟩ ⟨"m", MetricLabels.initDefault "a" "b" "c" "d", some 5⟩
        (.dataValue 31) false).state.latest_value = some 5
    ∧ (wsCollectIter ⟨50, 60, 30⟩ ⟨"m", MetricLabels.initDefault "a" "b" "c" "d", some 5⟩
        (.dataValue 31) false).state.labels.get_label MetricLabelKey.responseStatus
      = some "failed" :=
  bound_violation_not_published ⟨50, 60, 30⟩
    ⟨"m", MetricLabels.initDefault "a" "b" "c" "d", some 5⟩ 31 false (by norm_num [MAX_LATENCY_SEC])
    (by decide)

/-! Exposition formatting lemmas. -/

theorem prometheus_toOption_isSome (s : MetricState) :
    (get_prometheus_format s).toOption.isSome = s.latest_value.isSome := by
  cases h : s.latest_value <;> simp [get_prometheus_format, h, Except.toOption]

theorem influx_toOption_isSome (s : MetricState) :
    (get_influx_format s).toOption.isSome = s.latest_value.isSome := by
  cases h : s.latest_value with
  | none => simp [get_influx_format, h, Except.toOption]
  | some v =>
    simp only [get_influx_format, h, Option.isSome_some]
    split <;> simp [Except.toOption]

theorem get_all_latest_values_length (l : List MetricState) :
    (get_all_latest_values l).length
      = (l.filter fun i => i.latest_value.isSome).length := by
  induction l with
  | nil => rfl
  | cons i rest ih =>
    by_cases h : i.latest_value.isSome
    · have hfmt : (get_influx_format i).toOption.isSome = true := by
        rw [influx_toOption_isSome]; exact h
      obtain ⟨x, hx⟩ := Option.isSome_iff_exists.mp hfmt
      simp [get_all_latest_values, List.filterMap_cons, List.filter_cons, h, hx] at ih ⊢
      exact ih
    · simp [get_all_latest_values, List.filterMap_cons, List.filter_cons, h] at ih ⊢
      exact ih

/-- C9: a collector's value is readable exactly when at least one successful
collection has completed: both exposition formatters succeed if and only if
the latest value is set, and the renderer never hits the formatter's error
branch because it filters unset values first (no published collector is
dropped from the output). -/
theorem format_ok_iff_published (s : MetricState) (l : List MetricState) :
    (get_prometheus_format s).toOption.isSome = s.latest_value.isSome
    ∧ (get_influx_format s).toOption.isSome = s.latest_value.isSome
    ∧ (get_all_latest_values l).length
        = (l.filter fun i => i.latest_value.isSome).length :=
  ⟨prometheus_toOption_isSome s, influx_toOption_isSome s,
    get_all_latest_values_length l⟩

/-- C9 witness: formatter success and renderer completeness at concrete
published and unpublished collectors. -/
theorem format_ok_iff_published_witness :
    (get_prometheus_format ⟨"m", MetricLabels.initDefault "a" "b" "c" "d",
        none⟩).toOption.isSome
      = (Option.none : Option ℚ).isSome
    ∧ (get_influx_format ⟨"m", MetricLabels.initDefault "a" "b" "c" "d",
        none⟩).toOption.isSome
      = (Option.none : Option ℚ).isSome
    ∧ (get_all_latest_values [⟨"m", MetricLabels.initDefault "a" "b" "c" "d", some 1⟩,
        ⟨"n", MetricLabels.initDefault "a" "b" "c" "d", none⟩]).length
      = ([⟨"m", MetricLabels.initDefault "a" "b" "c" "d", some 1⟩,
          ⟨"n", MetricLabels.initDefault "a" "b" "c" "d", none⟩].filter
            fun i : MetricState => i.latest_value.isSome).length :=
  format_ok_iff_published ⟨"m", MetricLabels.initDefault "a" "b" "c" "d", none⟩
    [⟨"m", MetricLabels.initDefault "a" "b" "c" "d", some 1⟩,
     ⟨"n", MetricLabels.initDefault "a" "b" "c" "d", none⟩]

/-- C6 counterexample: a collector with a published value is rendered by the
exposition renderer in influx line form, not in the claimed
`name{labels} value` form produced by `get_prometheus_format`. -/
theorem renderer_line_not_prometheus_shaped :
    get_all_latest_values [⟨"m", MetricLabels.initDefault "sr" "tr" "bc" "pv", some 1⟩]
      ≠ [(get_prometheus_format
          ⟨"m", MetricLabels.initDefault "sr" "tr" "bc" "pv", some 1⟩).toOption.getD ""] := by
  decide

/-- C6 (amended): the renderer emits exactly one influx-format line per
collector whose value has been published at least once, collectors with no
published value contribute nothing, and the body is empty when no collector
has a published value. -/
theorem renderer_one_line_per_published (l : List MetricState) :
    (get_all_latest_values l).length
        = (l.filter fun i => i.latest_value.isSome).length
    ∧ (∀ i : MetricState, i.latest_value = none → get_all_latest_values [i] = [])
    ∧ (∀ i : MetricState, i.latest_value.isSome = true →
        get_all_latest_values [i] = [(get_influx_format i).toOption.getD ""])
    ∧ ((∀ i ∈ l, i.latest_value = none) → get_metrics_body l = "") := by
  refine ⟨get_all_latest_values_length l, ?_, ?_, ?_⟩
  · intro i hi
    simp [get_all_latest_values, List.filterMap_cons, hi]
  · intro i hi
    have hfmt : (get_influx_format i).toOption.isSome = true := by
      rw [influx_toOption_isSome]; exact hi
    obtain ⟨x, hx⟩ := Option.isSome_iff_exists.mp hfmt
    simp [get_all_latest_values, List.filterMap_cons, hi, hx]
  · intro hall
    have hempty : get_all_latest_values l = [] := by
      induction l with
      | nil => rfl
      | cons i rest ih =>
        have hi : i.latest_value = none := hall i (List.mem_cons_self i rest)
        have hrest : ∀ j ∈ rest, j.latest_value = none :=
          fun j hj => hall j (List.mem_cons_of_mem i hj)
        simp [get_all_latest_values, List.filterMap_cons, hi] at ih ⊢
        exact ih hrest
    rw [get_metrics_body, hempty]
    rfl

/-- C6 witness for the amended claim: renderer behaviour at concrete
published and unpublished collectors. -/
theorem renderer_one_line_per_published_witness :
    (get_all_latest_values [⟨"m", MetricLabels.initDefault "a" "b" "c" "d", some 1⟩,
        ⟨"n", MetricLabels.initDefault "a" "b" "c" "d", none⟩]).length
      = ([⟨"m", MetricLabels.initDefault "a" "b" "c" "d", some 1⟩,
          ⟨"n", MetricLabels.initDefault "a" "b" "c" "d", none⟩].filter
            fun i : MetricState => i.latest_value.isSome).length
    ∧ get_all_latest_values [⟨"n", MetricLabels.initDefault "a" "b" "c" "d", none⟩] = []
    ∧ get_all_latest_values [⟨"m", MetricLabels.initDefault "a" "b" "c" "d", some 1⟩]
      = [(get_influx_format
          ⟨"m", MetricLabels.initDefault "a" "b" "c" "d", some 1⟩).toOption.getD ""]
    ∧ get_metrics_body [⟨"n", MetricLabels.initDefault "a" "b" "c" "d", none⟩] = "" :=
  ⟨(renderer_one_line_per_published
      [⟨"m", MetricLabels.initDefault "a" "b" "c" "d", some 1⟩,
       ⟨"n", MetricLabels.initDefault "a" "b" "c" "d", none⟩]).1,
   (renderer_one_line_per_published []).2.1
     ⟨"n", MetricLabels.initDefault "a" "b" "c" "d", none⟩ rfl,
   (renderer_one_line_per_published []).2.2.1
     ⟨"m", MetricLabels.initDefault "a" "b" "c" "d", some 1⟩ rfl,
   (renderer_one_line_per_published
      [⟨"n", MetricLabels.initDefault "a" "b" "c" "d", none⟩]).2.2.2
     (by intro i hi; simp only [List.mem_singleton] at hi; rw [hi])⟩

/-- C8 counterexample: with the orchestrator's configuration shape
(timeout 50, interval 60, default retry interval 30), a connect fault in
the streaming loop sleeps the poll interval (60), not the configured
retry interval (30), before the next connect attempt. -/
theorem ws_fault_sleep_not_retry_interval :
    ¬ ((wsCollectIter ⟨50, 60, 30⟩ ⟨"m", MetricLabels.initDefault "a" "b" "c" "d", none⟩
        WsEvent.connectFail false).sleep
      = (⟨50, 60, 30⟩ : MetricConfig).retry_interval) := by
  decide

/-- C8 (amended): a fault at any state of the streaming cycle marks the
response status failed and leaves the latest value unchanged; the
best-effort unsubscribe/close in `finally` is attempted whenever a
connection was established, and a secondary fault there is swallowed (the
iteration's outcome does not depend on it); the loop then sleeps the
configured poll interval (not the retry interval) before reconnecting. -/
theorem ws_fault_path (cfg : MetricConfig) (s : MetricState) (e : WsEvent) (b b2 : Bool)
    (hf : e.isFault = true)
    (hs : (s.labels.get_label MetricLabelKey.responseStatus).isSome = true) :
    (wsCollectIter cfg s e b).state.labels.get_label MetricLabelKey.responseStatus
        = some "failed"
    ∧ (wsCollectIter cfg s e b).state.latest_value = s.latest_value
    ∧ wsCollectIter cfg s e b = wsCollectIter cfg s e b2
    ∧ (wsCollectIter cfg s e b).sleep = cfg.interval
    ∧ (e ≠ WsEvent.connectFail → (wsCollectIter cfg s e b).closeAttempted = true) := by
  cases e with
  | connectFail =>
    exact ⟨get_label_update_self _ _ _ hs, rfl, rfl, rfl, fun h => absurd rfl h⟩
  | subscribeFail =>
    exact ⟨get_label_update_self _ _ _ hs, rfl, rfl, rfl, fun _ => rfl⟩
  | listenFail =>
    exact ⟨get_label_update_self _ _ _ hs, rfl, rfl, rfl, fun _ => rfl⟩
  | listenNone =>
    simp [WsEvent.isFault] at hf
  | extractFail =>
    exact ⟨get_label_update_self _ _ _ hs, rfl, rfl, rfl, fun _ => rfl⟩
  | dataValue v =>
    have hv : MAX_LATENCY_SEC < v := of_decide_eq_true hf
    have hws : ∀ c : Bool, wsCollectIter cfg s (.dataValue v) c
        = ⟨handle_error s, true, cfg.interval⟩ := by
      intro c
      simp only [wsCollectIter, if_pos hv]
    rw [hws b, hws b2]
    exact ⟨get_label_update_self _ _ _ hs, rfl, rfl, rfl, fun _ => rfl⟩

/-- C8 witness: the amended fault path at a concrete subscribe failure. -/
theorem ws_fault_path_witness :
    (wsCollectIter ⟨50, 60, 30⟩ ⟨"m", MetricLabels.initDefault "a" "b" "c" "d", some 5⟩
        WsEvent.subscribeFail true).state.labels.get_label MetricLabelKey.responseStatus
      = some "failed"
    ∧ (wsCollectIter ⟨50, 60, 30⟩ ⟨"m", MetricLabels.initDefault "a" "b" "c" "d", some 5⟩
        WsEvent.subscribeFail true).state.latest_value = some 5
    ∧ wsCollectIter ⟨50, 60, 30⟩ ⟨"m", MetricLabels.initDefault "a" "b" "c" "d", some 5⟩
        WsEvent.subscribeFail true
      = wsCollectIter ⟨50, 60, 30⟩ ⟨"m", MetricLabels.initDefault "a" "b" "c" "d", some 5⟩
        WsEvent.subscribeFail false
    ∧ (wsCollectIter ⟨50, 60, 30⟩ ⟨"m", MetricLabels.initDefault "a" "b" "c" "d", some 5⟩
        WsEvent.subscribeFail true).sleep = (⟨50, 60, 30⟩ : MetricConfig).interval
    ∧ (wsCollectIter ⟨50, 60, 30⟩ ⟨"m", MetricLabels.initDefault "a" "b" "c" "d", some 5⟩
        WsEvent.subscribeFail true).closeAttempted = true := by
  obtain ⟨h1, h2, h3, h4, h5⟩ :=
    ws_fault_path ⟨50, 60, 30⟩ ⟨"m", MetricLabels.initDefault "a" "b" "c" "d", some 5⟩
      WsEvent.subscribeFail true false (by decide) (by decide)
  exact ⟨h1, h2, h3, h4, h5 (by decide)⟩

/-- C5: a fresh streaming collector receiving notifications with
identifiers [A, A, B] publishes exactly twice, for A then for B; the
duplicate A leaves the collector state completely unchanged (no publish,
no failed status, dedup marker untouched). -/
theorem stream_dedup_two_publishes (s0 : WsBlockState) (hA hB : String) (vA vA2 vB : ℚ)
    (hinit : s0.last_block_hash = none) (hne : hA ≠ hB)
    (hvA : ¬ MAX_LATENCY_SEC < vA) (hvB : ¬ MAX_LATENCY_SEC < vB) :
    (wsBlockRun s0 [⟨hA, vA⟩, ⟨hA, vA2⟩, ⟨hB, vB⟩]).2 = [⟨hA, vA⟩, ⟨hB, vB⟩]
    ∧ wsBlockIter (wsBlockIter s0 ⟨hA, vA⟩).1 ⟨hA, vA2⟩
        = ((wsBlockIter s0 ⟨hA, vA⟩).1, none) := by
  have hlisten1 : listen_for_data s0 ⟨hA, vA⟩
      = ({ s0 with last_block_hash := some hA }, some ⟨hA, vA⟩) := by
    rw [listen_for_data]
    rw [if_pos (by rw [hinit]; exact Option.some_ne_none hA)]
  have h1 : wsBlockIter s0 ⟨hA, vA⟩
      = (⟨update_metric_value s0.base vA, some hA⟩, some ⟨hA, vA⟩) := by
    rw [wsBlockIter, hlisten1]
    simp [hvA]
  have hlisten2 : listen_for_data ⟨update_metric_value s0.base vA, some hA⟩ ⟨hA, vA2⟩
      = (⟨update_metric_value s0.base vA, some hA⟩, none) := by
    rw [listen_for_data]
    rw [if_neg (by simp)]
  have h2 : wsBlockIter ⟨update_metric_value s0.base vA, some hA⟩ ⟨hA, vA2⟩
      = (⟨update_metric_value s0.base vA, some hA⟩, none) := by
    rw [wsBlockIter, hlisten2]
  have hlisten3 : listen_for_data ⟨update_metric_value s0.base vA, some hA⟩ ⟨hB, vB⟩
      = (⟨update_metric_value s0.base vA, some hB⟩, some ⟨hB, vB⟩) := by
    rw [listen_for_data]
    rw [if_pos (by simp [Ne.symm hne])]
  have h3 : wsBlockIter ⟨update_metric_value s0.base vA, some hA⟩ ⟨hB, vB⟩
      = (⟨update_metric_value (update_metric_value s0.base vA) vB, some hB⟩,
         some ⟨hB, vB⟩) := by
    rw [wsBlockIter, hlisten3]
    simp [hvB]
  constructor
  · simp [wsBlockRun, h1, h2, h3]
  · rw [h1, h2]

/-- C5 witness: the dedup run at concrete hashes and latencies. -/
theorem stream_dedup_two_publishes_witness :
    (wsBlockRun ⟨⟨"m", MetricLabels.initDefault "a" "b" "c" "d", none⟩, none⟩
        [⟨"hash1", 1⟩, ⟨"hash1", 2⟩, ⟨"hash2", 3⟩]).2 = [⟨"hash1", 1⟩, ⟨"hash2", 3⟩]
    ∧ wsBlockIter (wsBlockIter ⟨⟨"m", MetricLabels.initDefault "a" "b" "c" "d", none⟩, none⟩
        ⟨"hash1", 1⟩).1 ⟨"hash1", 2⟩
      = ((wsBlockIter ⟨⟨"m", MetricLabels.initDefault "a" "b" "c" "d", none⟩, none⟩
          ⟨"hash1", 1⟩).1, none) :=
  stream_dedup_two_publishes ⟨⟨"m", MetricLabels.initDefault "a" "b" "c" "d", none⟩, none⟩
    "hash1" "hash2" 1 2 3 rfl (by decide) (by decide) (by decide)

/-! Registry and creation lemmas. -/

theorem commaJoin_mention (l : List String) (x : String) (hx : x ∈ l) :
    ∃ pre post, commaJoin l = pre ++ x ++ post := by
  induction l with
  | nil => cases hx
  | cons a rest ih =>
    rcases List.mem_cons.mp hx with rfl | hx2
    · cases rest with
      | nil =>
        refine ⟨"", "", ?_⟩
        rw [commaJoin, String.append_empty, String.empty_append]
      | cons b r =>
        refine ⟨"", ", " ++ commaJoin (b :: r), ?_⟩
        rw [commaJoin]
        simp [String.append_assoc]
    · cases rest with
      | nil => cases hx2
      | cons b r =>
        obtain ⟨p, q, hpq⟩ := ih hx2
        refine ⟨a ++ ", " ++ p, q, ?_⟩
        rw [commaJoin, hpq]
        simp [String.append_assoc]

theorem pyListRepr_mention (l : List String) (x : String) (hx : x ∈ l) :
    ∃ pre post, pyListRepr l = pre ++ (quoteItem x) ++ post := by
  obtain ⟨p, q, hpq⟩ := commaJoin_mention (l.map quoteItem) (quoteItem x)
    (List.mem_map_of_mem quoteItem hx)
  refine ⟨"[" ++ p, q ++ "]", ?_⟩
  rw [pyListRepr, hpq]
  simp [String.append_assoc]

theorem createErrMsg_mention (b : String) (keys : List String) (x : String)
    (hx : x ∈ keys) :
    ∃ pre post, createErrMsg b keys = pre ++ (quoteItem x) ++ post := by
  obtain ⟨p, q, hpq⟩ := pyListRepr_mention keys x hx
  refine ⟨"No metric classes registered for blockchain " ++ quoteItem b
    ++ ". Available blockchains: " ++ p, q, ?_⟩
  rw [createErrMsg, hpq]
  simp [String.append_assoc]

/-- C3: creating collectors for an unregistered blockchain identity fails
deterministically with the configuration error whose message enumerates
(as a quoted item of the rendered key list) every currently registered
blockchain identity, and neither the registry nor the existing instance
list is changed by the failed call. -/
theorem create_unregistered_fails (cm : ClassId → Option String) (st : FactoryState)
    (instances : List MetricState) (b sr tr pv : String)
    (h : dictFind st.registry b = none) :
    (create_metrics cm st instances b sr tr pv).result
        = .error (createErrMsg b (dictKeys st.registry))
    ∧ (create_metrics cm st instances b sr tr pv).factory = st
    ∧ (create_metrics cm st instances b sr tr pv).instances = instances
    ∧ ∀ k ∈ dictKeys st.registry, ∃ pre post,
        createErrMsg b (dictKeys st.registry) = pre ++ (quoteItem k) ++ post := by
  refine ⟨?_, ?_, ?_, fun k hk => createErrMsg_mention b _ k hk⟩
  all_goals simp only [create_metrics, h]

/-- C3 witness: a concrete registry with two registered identities and an
unknown identity, the error decomposition shown at the first key. -/
theorem create_unregistered_fails_witness :
    (create_metrics (fun _ => none) ⟨[("eth", [0]), ("ton", [1])], [(0, "n0"), (1, "n1")]⟩
        [] "sol" "s" "t" "p").result
      = .error (createErrMsg "sol" (dictKeys [("eth", [0]), ("ton", [1])]))
    ∧ (create_metrics (fun _ => none) ⟨[("eth", [0]), ("ton", [1])], [(0, "n0"), (1, "n1")]⟩
        [] "sol" "s" "t" "p").factory
      = ⟨[("eth", [0]), ("ton", [1])], [(0, "n0"), (1, "n1")]⟩
    ∧ (create_metrics (fun _ => none) ⟨[("eth", [0]), ("ton", [1])], [(0, "n0"), (1, "n1")]⟩
        [] "sol" "s" "t" "p").instances = []
    ∧ ∃ pre post, createErrMsg "sol" (dictKeys [("eth", [0]), ("ton", [1])])
        = pre ++ (quoteItem "eth") ++ post := by
  obtain ⟨h1, h2, h3, h4⟩ := create_unregistered_fails (fun _ => none)
    ⟨[("eth", [0]), ("ton", [1])], [(0, "n0"), (1, "n1")]⟩ [] "sol" "s" "t" "p" rfl
  exact ⟨h1, h2, h3, h4 "eth" (by decide)⟩

theorem constructInstance_identity_labels (cm : ClassId → Option String)
    (names : List (ClassId × String)) (sr tr b pv : String) (c : ClassId) :
    (constructInstance cm names sr tr b pv c).labels.get_label MetricLabelKey.sourceRegion
        = some sr
    ∧ (constructInstance cm names sr tr b pv c).labels.get_label MetricLabelKey.targetRegion
        = some tr
    ∧ (constructInstance cm names sr tr b pv c).labels.get_label MetricLabelKey.blockchain
        = some b
    ∧ (constructInstance cm names sr tr b pv c).labels.get_label MetricLabelKey.provider
        = some pv := by
  rw [constructInstance]
  cases hm : cm c with
  | none => exact ⟨rfl, rfl, rfl, rfl⟩
  | some m =>
    simp only
    refine ⟨?_, ?_, ?_, ?_⟩
    all_goals (rw [get_label_update_ne _ _ _ _ (by decide)]; rfl)

/-- C4: for a registered blockchain, `create_metrics` returns exactly one
collector per registered definition, in registration order (the n-th
collector is built from the n-th registered class and carries that class's
current rendered name), and every returned collector carries the identical
provider-level identity label values given by the call's context. -/
theorem create_registered_one_per_definition (cm : ClassId → Option String)
    (st : FactoryState) (instances : List MetricState) (b sr tr pv : String)
    (classes : List ClassId) (h : dictFind st.registry b = some classes) :
    (create_metrics cm st instances b sr tr pv).result
        = .ok (classes.map (constructInstance cm st.classNames sr tr b pv))
    ∧ (classes.map (constructInstance cm st.classNames sr tr b pv)).length
        = classes.length
    ∧ (∀ n (hn : n < classes.length),
        ((classes.map (constructInstance cm st.classNames sr tr b pv)).get
            ⟨n, by rw [List.length_map]; exact hn⟩).metric_name
          = (getClassName st.classNames (classes.get ⟨n, hn⟩)).getD "")
    ∧ ∀ i ∈ classes.map (constructInstance cm st.classNames sr tr b pv),
        i.labels.get_label MetricLabelKey.sourceRegion = some sr
        ∧ i.labels.get_label MetricLabelKey.targetRegion = some tr
        ∧ i.labels.get_label MetricLabelKey.blockchain = some b
        ∧ i.labels.get_label MetricLabelKey.provider = some pv := by
  refine ⟨?_, List.length_map _ _, ?_, ?_⟩
  · simp only [create_metrics, h]
  · intro n hn
    simp [List.get_map, constructInstance]
  · intro i hi
    obtain ⟨c, _, rfl⟩ := List.mem_map.mp hi
    exact constructInstance_identity_labels cm st.classNames sr tr b pv c

/-- C4 witness: a registry with two definitions, identical identity labels
on both returned collectors and names in registration order. -/
theorem create_registered_one_per_definition_witness :
    (create_metrics (fun c => if c = 0 then some "m0" else some "m1")
        ⟨[("chain", [0, 1])], [(0, "n0"), (1, "n1")]⟩ [] "chain" "s" "t" "p").result
      = .ok ([0, 1].map (constructInstance (fun c => if c = 0 then some "m0" else some "m1")
          [(0, "n0"), (1, "n1")] "s" "t" "chain" "p"))
    ∧ ([0, 1].map (constructInstance (fun c => if c = 0 then some "m0" else some "m1")
        [(0, "n0"), (1, "n1")] "s" "t" "chain" "p")).length = 2
    ∧ (([0, 1].map (constructInstance (fun c => if c = 0 then some "m0" else some "m1")
        [(0, "n0"), (1, "n1")] "s" "t" "chain" "p")).get ⟨0, by decide⟩).metric_name
      = (getClassName [(0, "n0"), (1, "n1")] 0).getD ""
    ∧ (([0, 1].map (constructInstance (fun c => if c = 0 then some "m0" else some "m1")
        [(0, "n0"), (1, "n1")] "s" "t" "chain" "p")).get ⟨1, by decide⟩).labels.get_label
          MetricLabelKey.blockchain = some "chain" := by
  obtain ⟨h1, h2, h3, h4⟩ := create_registered_one_per_definition
    (fun c => if c = 0 then some "m0" else some "m1")
    ⟨[("chain", [0, 1])], [(0, "n0"), (1, "n1")]⟩ [] "chain" "s" "t" "p" [0, 1] rfl
  refine ⟨h1, h2, h3 0 (by decide), ?_⟩
  exact (h4 _ (by
    refine List.mem_map.mpr ⟨1, ?_, rfl⟩
    decide)).2.2.1

/-- C7 counterexample: with two definitions registered for one blockchain
(class 0 declaring method m0, class 1 declaring method m1), the two
collectors returned by one `create_metrics` call carry different api-method
label values — each its own class's method — so no mutation performed by
one instance at construction is visible through its sibling, and the final
label values are not those of the last-constructed instance. -/
theorem siblings_do_not_share_labels :
    ((create_metrics (fun c => if c = 0 then some "m0" else some "m1")
        ⟨[("chain", [0, 1])], [(0, "n0"), (1, "n1")]⟩ [] "chain" "s" "t" "p").result.toOption.map
      (fun l => l.map fun i => i.labels.get_label MetricLabelKey.apiMethod))
      = some [some "m0", some "m1"]
    ∧ ¬ (((create_metrics (fun c => if c = 0 then some "m0" else some "m1")
        ⟨[("chain", [0, 1])], [(0, "n0"), (1, "n1")]⟩ [] "chain" "s" "t"
          "p").result.toOption.map
      (fun l => l.map fun i => i.labels.get_label MetricLabelKey.apiMethod))
      = some [some "m1", some "m1"]) := by
  decide

theorem constructInstance_apiMethod (cm : ClassId → Option String)
    (names : List (ClassId × String)) (sr tr b pv : String) (c : ClassId) :
    (constructInstance cm names sr tr b pv c).labels.get_label MetricLabelKey.apiMethod
      = some ((cm c).getD "default") := by
  rw [constructInstance]
  cases cm c with
  | none => rfl
  | some m => exact get_label_update_self _ _ _ rfl

/-- C7 (amended): each collector returned by `create_metrics` owns an
independent fresh label set built from the provider context, so the
api-method label of the n-th returned collector is determined by its own
class alone (that class's declared method, or the "default" placeholder),
unaffected by the construction of its siblings. -/
theorem each_collector_owns_its_label_set (cm : ClassId → Option String)
    (st : FactoryState) (instances : List MetricState) (b sr tr pv : String)
    (classes : List ClassId) (h : dictFind st.registry b = some classes) :
    (create_metrics cm st instances b sr tr pv).result
        = .ok (classes.map (constructInstance cm st.classNames sr tr b pv))
    ∧ ∀ n (hn : n < classes.length),
        ((classes.map (constructInstance cm st.classNames sr tr b pv)).get
            ⟨n, by rw [List.length_map]; exact hn⟩).labels.get_label MetricLabelKey.apiMethod
          = some ((cm (classes.get ⟨n, hn⟩)).getD "default") := by
  refine ⟨by simp only [create_metrics, h], ?_⟩
  intro n hn
  simp only [List.get_map]
  exact constructInstance_apiMethod cm st.classNames sr tr b pv _

/-- C7 witness for the amended claim: with methods m0 and m1 registered,
the second collector's api-method is its own class's m1. -/
theorem each_collector_owns_its_label_set_witness :
    (create_metrics (fun c => if c = 0 then some "m0" else some "m1")
        ⟨[("chain", [0, 1])], [(0, "n0"), (1, "n1")]⟩ [] "chain" "s" "t" "p").result
      = .ok ([0, 1].map (constructInstance (fun c => if c = 0 then some "m0" else some "m1")
          [(0, "n0"), (1, "n1")] "s" "t" "chain" "p"))
    ∧ (([0, 1].map (constructInstance (fun c => if c = 0 then some "m0" else some "m1")
        [(0, "n0"), (1, "n1")] "s" "t" "chain" "p")).get ⟨1, by decide⟩).labels.get_label
          MetricLabelKey.apiMethod
      = some (((fun c : ClassId => if c = 0 then some "m0" else some "m1") 1).getD
          "default") := by
  obtain ⟨h1, h2⟩ := each_collector_owns_its_label_set
    (fun c => if c = 0 then some "m0" else some "m1")
    ⟨[("chain", [0, 1])], [(0, "n0"), (1, "n1")]⟩ [] "chain" "s" "t" "p" [0, 1] rfl
  exact ⟨h1, h2 1 (by decide)⟩

/-- C10: `register` stores the rendered name as a class-level attribute, so
registering the same class again under a different name overwrites it, and
a collector created afterwards for the first blockchain carries the most
recently registered name — registration for one blockchain is not
frame-preserving with respect to earlier definitions using the same class. -/
theorem register_overwrites_class_name (cm : ClassId → Option String)
    (b1 b2 : String) (c : ClassId) (n1 n2 sr tr pv : String) (hb : b1 ≠ b2) :
    ((create_metrics cm
        (register (register FactoryState.empty [(b1, [(c, n1)])]) [(b2, [(c, n2)])])
        [] b1 sr tr pv).result.toOption.map (fun l => l.map MetricState.metric_name))
      = some [n2] := by
  have hst : register (register FactoryState.empty [(b1, [(c, n1)])]) [(b2, [(c, n2)])]
      = ⟨[(b1, [c]), (b2, [c])], [(c, n2)]⟩ := by
    simp [register, registerOne, ensureKey, dictFind, registryAppend, setClassName,
      FactoryState.empty, hb]
  rw [hst]
  have hfind : dictFind [(b1, [c]), (b2, [c])] b1 = some [c] := by
    simp [dictFind]
  simp [create_metrics, hfind, constructInstance, getClassName, Except.toOption]

/-- C10 witness: class 5 registered as eth_name for eth and then as
ton_name for ton; creating the eth collectors afterwards yields the name
ton_name. -/
theorem register_overwrites_class_name_witness :
    ((create_metrics (fun _ => none)
        (register (register FactoryState.empty [("eth", [(5, "eth_name")])])
          [("ton", [(5, "ton_name")])])
        [] "eth" "s" "t" "p").result.toOption.map (fun l => l.map MetricState.metric_name))
      = some ["ton_name"] :=
  register_overwrites_class_name (fun _ => none) "eth" "ton" 5 "eth_name" "ton_name"
    "s" "t" "p" (by decide)

end Monitoring
